import Mathlib

/-!
Verification of the radar target analysis core (`src/radar_analyzer`):
the rule-based tagging engine (`tagging_engine.py`), the kinematic feature
extractor (`feature_extractor.py`) and the synthetic trajectory generator
(`synthetic_generator.py`), shallowly embedded in Lean.

Conventions of the embedding:
* Python floats are modelled as `ℚ` where only comparisons and field
  arithmetic occur (the tagging engine) and as `ℝ` where square roots and
  trigonometric functions occur (the feature extractor and synthesizer).
* numpy operations that raise on empty arrays (`np.max`, `np.min`,
  indexing with `[0]`/`[-1]`) are modelled in the `Except String` monad;
  `np.mean` of an empty array yields NaN with only a warning in numpy, it
  is modelled by the junk value `0` (division by zero in Lean) since no
  claim depends on the propagated NaN value.
* `np.random.randn` is modelled by reading successive values from an
  explicit stream `ℕ → ℝ` carried in an `Rng` state, mirroring numpy's
  ambient global generator.
-/

/-! ## Tagging engine (`tagging_engine.py`)

A feature dictionary is read with `features.get(key, default)`: every key
the engine reads has a fixed fallback (0, except `duration` whose fallback
is 1.0, and `speed` whose fallback is the empty array).  The dictionary is
therefore modelled as a structure whose fields default to those fallbacks;
the all-default value is exactly the empty feature map. -/

structure Features where
  speed_mean : ℚ := 0
  speed_std : ℚ := 0
  speed : List ℚ := []
  g_force_max : ℚ := 0
  g_force_mean : ℚ := 0
  high_g_events : ℚ := 0
  mean_turn_angle : ℚ := 0
  max_turn_angle : ℚ := 0
  sharp_turns_count : ℚ := 0
  curvature_mean : ℚ := 0
  std_turn_angle : ℚ := 0
  altitude_change : ℚ := 0
  duration : ℚ := 1
  total_path_length : ℚ := 0
deriving DecidableEq

/-- The configurable thresholds of `TaggingEngine._load_thresholds`, with
their documented defaults.  The hovering (5.0), ascending (10.0) and
descending (−10.0) thresholds are hard-coded in the source and appear as
literals in the rule functions below. -/
structure TagConfig where
  high_speed_thresh : ℚ := 300
  medium_speed_thresh : ℚ := 150
  low_speed_thresh : ℚ := 50
  high_g_thresh : ℚ := 5
  medium_g_thresh : ℚ := 2
  sharp_turn_thresh : ℚ := 45
  smooth_turn_thresh : ℚ := 15

def defaultTagConfig : TagConfig := {}

/-- Least-squares slope of a degree-1 fit of `s` against `0, 1, …, n−1`:
`np.polyfit(range(len(speed)), speed, 1)[0]`. -/
def polyfitSlope (s : List ℚ) : ℚ :=
  let n : ℚ := s.length
  let xs : List ℚ := (List.range s.length).map (fun (i : ℕ) => (i : ℚ))
  let sx := xs.sum
  let sy := s.sum
  let sxy := (List.zipWith (fun a b => a * b) xs s).sum
  let sxx := (xs.map (fun a => a * a)).sum
  (n * sxy - sx * sy) / (n * sxx - sx * sx)

/-- `TaggingEngine._tag_speed`. -/
def tagSpeed (c : TagConfig) (f : Features) : List String :=
  (if f.speed_mean ≥ c.high_speed_thresh then ["high_speed"]
   else if f.speed_mean ≥ c.medium_speed_thresh then ["medium_speed"]
   else if f.speed_mean ≥ c.low_speed_thresh then ["low_speed"]
   else if f.speed_mean < 5 then ["hovering"]
   else []) ++
  (if f.speed_std > 3/10 * f.speed_mean ∧ f.speed.length > 2 then
     (if polyfitSlope f.speed > 5 then ["accelerating"]
      else if polyfitSlope f.speed < -5 then ["decelerating"]
      else [])
   else [])

/-- `TaggingEngine._tag_acceleration`: `g_turn` and `evasive_maneuver` are
asserted together. -/
def tagAcceleration (c : TagConfig) (f : Features) : List String :=
  if f.g_force_max > c.high_g_thresh ∨ f.high_g_events > 0 then
    ["g_turn", "evasive_maneuver"]
  else []

/-- `TaggingEngine._tag_trajectory`. -/
def tagTrajectory (c : TagConfig) (f : Features) : List String :=
  (if f.sharp_turns_count > 2 ∨ f.max_turn_angle > c.sharp_turn_thresh then
     ["sharp_trajectory"]
   else if f.mean_turn_angle < c.smooth_turn_thresh then ["smooth_trajectory"]
   else []) ++
  (if f.mean_turn_angle < 5 ∧ f.curvature_mean < 1/1000 then ["straight_line"]
   else []) ++
  (if f.curvature_mean > 1/100 ∧ f.mean_turn_angle > 20 ∧
      f.std_turn_angle < 3/10 * f.mean_turn_angle then ["spiral"]
   else [])

/-- `TaggingEngine._tag_altitude`. -/
def tagAltitude (f : Features) : List String :=
  if f.duration > 0 then
    (if f.altitude_change / f.duration > 10 then ["ascending"]
     else if f.altitude_change / f.duration < -10 then ["descending"]
     else [])
  else []

/-- `TaggingEngine._tag_complex_behaviors`.  The second rule tests
membership of `g_turn`/`sharp_trajectory` in the freshly created local
`tags` set (which can only ever contain `loitering`), exactly as the
source does. -/
def tagComplexBehaviors (c : TagConfig) (f : Features) : List String :=
  let tags :=
    if f.speed_mean < c.low_speed_thresh ∧ f.mean_turn_angle > 10 ∧
       f.total_path_length > 1000 then ["loitering"] else []
  tags ++
    (if "g_turn" ∈ tags ∧ "sharp_trajectory" ∈ tags ∧
        f.speed_mean > c.medium_speed_thresh then ["evasive_maneuver"]
     else [])

/-- Sorted insertion skipping an element already present: the building
block for Python's `sorted(list(set(...)))`.  The comparison `x.data <
y.data` is the lexicographic order `x < y` on `String` (equivalent by
`String.lt_iff_toList_lt`; Python compares strings the same way); it is
written on the character lists so that it evaluates on concrete tags. -/
def insertSorted (x : String) : List String → List String
  | [] => [x]
  | y :: ys =>
    if x.data < y.data then x :: y :: ys
    else if x = y then y :: ys
    else y :: insertSorted x ys

/-- `sorted(list(set(l)))`: the lexicographically sorted deduplication. -/
def sortDedup (l : List String) : List String :=
  l.foldr insertSorted []

/-- `TaggingEngine.tag_target`: union of the five rule groups, returned
sorted and deduplicated. -/
def tag_target (c : TagConfig) (f : Features) : List String :=
  sortDedup (tagSpeed c f ++ tagAcceleration c f ++ tagTrajectory c f ++
    tagAltitude f ++ tagComplexBehaviors c f)

/-- `TaggingEngine.batch_tag` loops over the feature maps calling
`tag_target` with no `try`/`except`; a Python call that raises is modelled
by an `Except`-valued tagger, and the loop by `mapM`, under which the
first error propagates out of the whole batch. -/
def batch_tag (tagF : Features → Except String (List String)) :
    List Features → Except String (List (List String))
  | [] => .ok []
  | f :: fs =>
    match tagF f with
    | .error e => .error e
    | .ok tags =>
      match batch_tag tagF fs with
      | .error e => .error e
      | .ok rest => .ok (tags :: rest)

/-- The embedded `tag_target` itself never raises: the total tagger. -/
def okTagger (c : TagConfig) : Features → Except String (List String) :=
  fun f => .ok (tag_target c f)

/-- A tagger that raises on one distinguished feature map (here: any map
whose `speed_mean` is 42), modelling a `tag_target` call that throws on a
malformed feature value. -/
def failingTagger : Features → Except String (List String) :=
  fun f =>
    if f.speed_mean = 42 then .error "boom"
    else .ok (tag_target defaultTagConfig f)

/-! ### Helper lemmas about `sortDedup` -/

theorem mem_insertSorted (a x : String) (l : List String) :
    a ∈ insertSorted x l ↔ a = x ∨ a ∈ l := by
  induction l with
  | nil => simp [insertSorted]
  | cons y ys ih =>
    by_cases h1 : x.data < y.data
    · simp [insertSorted, h1]
    · by_cases h2 : x = y
      · subst h2
        simp [insertSorted, h1]
      · simp [insertSorted, h1, h2, ih]
        tauto

theorem mem_sortDedup (a : String) (l : List String) :
    a ∈ sortDedup l ↔ a ∈ l := by
  induction l with
  | nil => simp [sortDedup]
  | cons x xs ih =>
    simp [sortDedup, List.foldr] at ih ⊢
    rw [mem_insertSorted]
    tauto

theorem pairwise_insertSorted (x : String) (l : List String)
    (h : l.Pairwise (· < ·)) : (insertSorted x l).Pairwise (· < ·) := by
  induction l with
  | nil => simp [insertSorted]
  | cons y ys ih =>
    rw [List.pairwise_cons] at h
    by_cases h1 : x.data < y.data
    · rw [insertSorted, if_pos h1, List.pairwise_cons]
      have hxy : x < y := String.lt_iff_toList_lt.mpr h1
      constructor
      · intro b hb
        rcases List.mem_cons.mp hb with hb | hb
        · exact hb ▸ hxy
        · exact lt_trans hxy (h.1 b hb)
      · exact List.pairwise_cons.mpr h
    · by_cases h2 : x = y
      · rw [insertSorted, if_neg h1, if_pos h2]
        exact List.pairwise_cons.mpr h
      · rw [insertSorted, if_neg h1, if_neg h2, List.pairwise_cons]
        have hxyn : ¬ x < y := fun hlt => h1 (String.lt_iff_toList_lt.mp hlt)
        have hyx : y < x := lt_of_le_of_ne (le_of_not_lt hxyn) (Ne.symm h2)
        constructor
        · intro b hb
          rcases (mem_insertSorted b x ys).mp hb with hb | hb
          · exact hb ▸ hyx
          · exact h.1 b hb
        · exact ih h.2

theorem pairwise_sortDedup (l : List String) :
    (sortDedup l).Pairwise (· < ·) := by
  induction l with
  | nil => simp [sortDedup]
  | cons x xs ih => exact pairwise_insertSorted x (sortDedup xs) ih

/-! ### Membership facts for the rule groups -/

theorem gturn_notmem_tagSpeed (c : TagConfig) (f : Features) :
    "g_turn" ∉ tagSpeed c f := by
  unfold tagSpeed
  split_ifs <;> simp

theorem evasive_notmem_tagSpeed (c : TagConfig) (f : Features) :
    "evasive_maneuver" ∉ tagSpeed c f := by
  unfold tagSpeed
  split_ifs <;> simp

theorem gturn_notmem_tagTrajectory (c : TagConfig) (f : Features) :
    "g_turn" ∉ tagTrajectory c f := by
  unfold tagTrajectory
  split_ifs <;> simp

theorem evasive_notmem_tagTrajectory (c : TagConfig) (f : Features) :
    "evasive_maneuver" ∉ tagTrajectory c f := by
  unfold tagTrajectory
  split_ifs <;> simp

theorem gturn_notmem_tagAltitude (f : Features) :
    "g_turn" ∉ tagAltitude f := by
  unfold tagAltitude
  split_ifs <;> simp

theorem evasive_notmem_tagAltitude (f : Features) :
    "evasive_maneuver" ∉ tagAltitude f := by
  unfold tagAltitude
  split_ifs <;> simp

/-- In `_tag_complex_behaviors` the membership test for `g_turn` is made
against the freshly created local set, which holds at most `loitering`;
the `evasive_maneuver` re-assertion can therefore never fire. -/
theorem evasive_notmem_tagComplexBehaviors (c : TagConfig) (f : Features) :
    "evasive_maneuver" ∉ tagComplexBehaviors c f := by
  unfold tagComplexBehaviors
  split_ifs <;> simp_all

theorem gturn_notmem_tagComplexBehaviors (c : TagConfig) (f : Features) :
    "g_turn" ∉ tagComplexBehaviors c f := by
  unfold tagComplexBehaviors
  split_ifs <;> simp_all

theorem gturn_mem_tagAcceleration_iff (c : TagConfig) (f : Features) :
    "g_turn" ∈ tagAcceleration c f ↔
      (f.g_force_max > c.high_g_thresh ∨ f.high_g_events > 0) := by
  unfold tagAcceleration
  split_ifs with h <;> simp [h]

theorem evasive_mem_tagAcceleration_iff (c : TagConfig) (f : Features) :
    "evasive_maneuver" ∈ tagAcceleration c f ↔
      (f.g_force_max > c.high_g_thresh ∨ f.high_g_events > 0) := by
  unfold tagAcceleration
  split_ifs with h <;> simp [h]

theorem gturn_mem_tag_target_iff (c : TagConfig) (f : Features) :
    "g_turn" ∈ tag_target c f ↔
      (f.g_force_max > c.high_g_thresh ∨ f.high_g_events > 0) := by
  rw [tag_target, mem_sortDedup]
  simp only [List.mem_append]
  rw [gturn_mem_tagAcceleration_iff]
  have h1 := gturn_notmem_tagSpeed c f
  have h2 := gturn_notmem_tagTrajectory c f
  have h3 := gturn_notmem_tagAltitude f
  have h4 := gturn_notmem_tagComplexBehaviors c f
  tauto

theorem evasive_mem_tag_target_iff (c : TagConfig) (f : Features) :
    "evasive_maneuver" ∈ tag_target c f ↔
      (f.g_force_max > c.high_g_thresh ∨ f.high_g_events > 0) := by
  rw [tag_target, mem_sortDedup]
  simp only [List.mem_append]
  rw [evasive_mem_tagAcceleration_iff]
  have h1 := evasive_notmem_tagSpeed c f
  have h2 := evasive_notmem_tagTrajectory c f
  have h3 := evasive_notmem_tagAltitude f
  have h4 := evasive_notmem_tagComplexBehaviors c f
  tauto

/-! ### Claim theorems for the tagging engine -/

/-- C10: on the empty feature map (every lookup falling back to its
default), `tag_target` with the default thresholds returns exactly
`["hovering", "smooth_trajectory", "straight_line"]`. -/
theorem claim_C10_empty_features_tags :
    tag_target defaultTagConfig {} = ["hovering", "smooth_trajectory", "straight_line"] := by
  norm_num [tag_target, tagSpeed, tagAcceleration, tagTrajectory, tagAltitude,
    tagComplexBehaviors, defaultTagConfig]
  decide

/-- C8: for every feature map and threshold configuration, the tag list
returned by `tag_target` is lexicographically sorted (strictly, hence also
duplicate-free). -/
theorem claim_C8_tag_target_sorted_nodup (c : TagConfig) (f : Features) :
    List.Sorted (· < ·) (tag_target c f) ∧ (tag_target c f).Nodup := by
  have hp := pairwise_sortDedup (tagSpeed c f ++ tagAcceleration c f ++
    tagTrajectory c f ++ tagAltitude f ++ tagComplexBehaviors c f)
  exact ⟨hp, hp.imp ne_of_lt⟩

/-- C9: `evasive_maneuver` appears in the output of `tag_target` exactly
when `g_turn` does — the acceleration rule asserts both together and the
composite rule tests a fresh local set, so it never adds
`evasive_maneuver` on its own. -/
theorem claim_C9_evasive_iff_gturn (c : TagConfig) (f : Features) :
    ("evasive_maneuver" ∈ tag_target c f ↔ "g_turn" ∈ tag_target c f) := by
  rw [evasive_mem_tag_target_iff, gturn_mem_tag_target_iff]

/-- C5: with default thresholds, if the tag set contains both `g_turn` and
`sharp_trajectory` and `speed_mean` exceeds the medium-speed threshold
(150), then it contains `evasive_maneuver`. -/
theorem claim_C5_evasive_invariant (f : Features)
    (hg : "g_turn" ∈ tag_target defaultTagConfig f)
    (hs : "sharp_trajectory" ∈ tag_target defaultTagConfig f)
    (hsp : f.speed_mean > 150) :
    "evasive_maneuver" ∈ tag_target defaultTagConfig f := by
  rw [evasive_mem_tag_target_iff]
  rw [gturn_mem_tag_target_iff] at hg
  exact hg

/-- Witness for C5: a feature map with a high-g event, a sharp turn and a
fast mean speed. -/
theorem claim_C5_witness :
    "evasive_maneuver" ∈ tag_target defaultTagConfig
      { g_force_max := 6, max_turn_angle := 50, speed_mean := 200 } :=
  claim_C5_evasive_invariant
    { g_force_max := 6, max_turn_angle := 50, speed_mean := 200 }
    (by norm_num [tag_target, tagSpeed, tagAcceleration, tagTrajectory, tagAltitude,
        tagComplexBehaviors, defaultTagConfig]; decide)
    (by norm_num [tag_target, tagSpeed, tagAcceleration, tagTrajectory, tagAltitude,
        tagComplexBehaviors, defaultTagConfig]; decide)
    (by norm_num)

/-- Sample feature maps for batch tagging. -/
def demoA : Features := {}

def demoBad : Features := { speed_mean := 42 }

def demoB : Features := { speed_mean := 200 }

/-- C3 counterexample: a three-item batch where only the middle item's
tagger call raises.  `batch_tag` does not isolate the failure: the whole
batch errors, and no tag sets are returned for the other two items. -/
theorem claim_C3_counterexample :
    failingTagger demoA = .ok (tag_target defaultTagConfig demoA) ∧
    failingTagger demoBad = .error "boom" ∧
    failingTagger demoB = .ok (tag_target defaultTagConfig demoB) ∧
    batch_tag failingTagger [demoA, demoBad, demoB] = .error "boom" :=
  ⟨rfl, rfl, rfl, rfl⟩

/-- C3 amended: `batch_tag` runs the tagger on the items in order with no
per-item error handling, so the first raising item aborts the whole batch
with its error and no output list is produced. -/
theorem claim_C3_batch_error_propagates
    (tagF : Features → Except String (List String))
    (pre : List Features) (bad : Features) (post : List Features) (e : String)
    (hpre : ∀ g ∈ pre, ∃ t, tagF g = .ok t)
    (hbad : tagF bad = .error e) :
    batch_tag tagF (pre ++ bad :: post) = .error e := by
  induction pre with
  | nil =>
    rw [List.nil_append]
    simp [batch_tag, hbad]
  | cons g gs ih =>
    obtain ⟨t, ht⟩ := hpre g (List.mem_cons_self g gs)
    have hrest : batch_tag tagF (gs ++ bad :: post) = .error e :=
      ih (fun x hx => hpre x (List.mem_cons_of_mem g hx))
    rw [List.cons_append]
    simp [batch_tag, ht, hrest]

/-- Witness for C3 amended: the concrete failing batch. -/
theorem claim_C3_witness :
    batch_tag failingTagger ([demoA] ++ demoBad :: [demoB]) = .error "boom" :=
  claim_C3_batch_error_propagates failingTagger [demoA] demoBad [demoB] "boom"
    (by
      intro g hg
      rw [List.mem_singleton] at hg
      subst hg
      exact ⟨tag_target defaultTagConfig demoA, rfl⟩)
    rfl

/-! ## Feature extractor (`feature_extractor.py`)

Positions, velocities and accelerations are `N×3` float arrays, modelled
as lists of real triples.  `np.max`/`np.min` raise `ValueError` on an
empty array and `arr[0]`/`arr[-1]` raise `IndexError`; these are the
`Except`-valued operations below. -/

abbrev Vec3 : Type := ℝ × ℝ × ℝ

noncomputable def norm3 (v : Vec3) : ℝ :=
  Real.sqrt (v.1 ^ 2 + v.2.1 ^ 2 + v.2.2 ^ 2)

noncomputable def dot3 (a b : Vec3) : ℝ :=
  a.1 * b.1 + a.2.1 * b.2.1 + a.2.2 * b.2.2

noncomputable def cross3 (a b : Vec3) : Vec3 :=
  (a.2.1 * b.2.2 - a.2.2 * b.2.1,
   a.2.2 * b.1 - a.1 * b.2.2,
   a.1 * b.2.1 - a.2.1 * b.1)

noncomputable def vdiv (v : Vec3) (s : ℝ) : Vec3 :=
  (v.1 / s, v.2.1 / s, v.2.2 / s)

/-- `np.diff` on an `N×3` array: consecutive differences, length `N−1`. -/
noncomputable def listDiffV : List Vec3 → List Vec3
  | a :: b :: rest => (b - a) :: listDiffV (b :: rest)
  | _ => []

/-- `np.diff` on a 1-d array. -/
noncomputable def listDiffR : List ℝ → List ℝ
  | a :: b :: rest => (b - a) :: listDiffR (b :: rest)
  | _ => []

/-- `np.mean`; on an empty array numpy returns NaN (warning, no fault),
modelled by the junk value `0`. -/
noncomputable def npMean (l : List ℝ) : ℝ :=
  l.sum / l.length

/-- `np.std` (population standard deviation). -/
noncomputable def npStd (l : List ℝ) : ℝ :=
  Real.sqrt (npMean (l.map (fun x => (x - npMean l) ^ 2)))

def maxEmptyMsg : String := "zero-size array to reduction operation maximum"

def minEmptyMsg : String := "zero-size array to reduction operation minimum"

def idxEmptyMsg : String := "index out of bounds for axis 0"

/-- `np.max`: raises `ValueError` on an empty array. -/
noncomputable def npMaxE : List ℝ → Except String ℝ
  | [] => .error maxEmptyMsg
  | x :: xs => .ok (xs.foldl max x)

/-- `np.min`: raises `ValueError` on an empty array. -/
noncomputable def npMinE : List ℝ → Except String ℝ
  | [] => .error minEmptyMsg
  | x :: xs => .ok (xs.foldl min x)

/-- `arr[0]`: raises `IndexError` on an empty array. -/
def npFirstE {α : Type} : List α → Except String α
  | [] => .error idxEmptyMsg
  | x :: _ => .ok x

/-- `arr[-1]`: raises `IndexError` on an empty array. -/
def npLastE {α : Type} (l : List α) : Except String α :=
  match l.getLast? with
  | none => .error idxEmptyMsg
  | some x => .ok x

/-- `np.clip(x, lo, hi)`. -/
noncomputable def clip (x lo hi : ℝ) : ℝ := max lo (min x hi)

/-- `np.degrees`. -/
noncomputable def npDegrees (x : ℝ) : ℝ := x * 180 / Real.pi

/-- The loop body of `FeatureExtractor._compute_turn_angles`: angle in
degrees between consecutive displacement vectors, via arccos of the
epsilon-guarded normalized dot product, cosine clipped to `[-1, 1]`. -/
noncomputable def angleDeg (v1 v2 : Vec3) : ℝ :=
  npDegrees (Real.arccos
    (clip (dot3 v1 v2 / (norm3 v1 * norm3 v2 + 1 / 10 ^ 10)) (-1) 1))

/-- `FeatureExtractor._compute_turn_angles`: empty for fewer than 3
samples, otherwise the `N−2` angles between consecutive displacement
vectors. -/
noncomputable def compute_turn_angles (position : List Vec3) : List ℝ :=
  if position.length < 3 then []
  else
    let vectors := listDiffV position
    List.zipWith angleDeg vectors vectors.tail

/-- `FeatureExtractor._compute_curvature`: the one-element array `[0]`
for fewer than 3 samples (not the empty array), otherwise
`‖v×a‖/‖v‖³` per sample with `v = velocity[i+1]`, `a = acceleration[i]`,
zero when `‖v‖ ≤ 1e-6`. -/
noncomputable def compute_curvature (position : List Vec3) : List ℝ :=
  if position.length < 3 then [0]
  else
    let velocity := listDiffV position
    let acceleration := listDiffV velocity
    List.zipWith
      (fun v a =>
        if norm3 v > 1 / 10 ^ 6 then norm3 (cross3 v a) / norm3 v ^ 3 else 0)
      velocity.tail acceleration

/-- The features computed by `FeatureExtractor.extract_trajectory_features`. -/
structure TrajFeatures where
  total_path_length : ℝ
  mean_segment_length : ℝ
  turn_angles : List ℝ
  mean_turn_angle : ℝ
  max_turn_angle : ℝ
  std_turn_angle : ℝ
  sharp_turns_count : ℕ
  altitude_mean : ℝ
  altitude_std : ℝ
  altitude_change : ℝ
  altitude_max : ℝ
  altitude_min : ℝ
  curvature_mean : ℝ
  curvature_max : ℝ

/-- `FeatureExtractor.extract_trajectory_features` with the configured
sharp-turn threshold (default 45°).  The `Except` binds appear in the
order in which the source hits the raising numpy operations:
`np.max(|turn_angles|)` first (line 129), then `altitude[-1]`,
`altitude[0]`, `np.max(altitude)`, `np.min(altitude)`,
`np.max(curvature)`. -/
noncomputable def extract_trajectory_features (sharp_turn_angle : ℝ)
    (position : List Vec3) : Except String TrajFeatures :=
  let segment_lengths := (listDiffV position).map norm3
  let turn_angles := compute_turn_angles position
  let abs_angles := turn_angles.map (fun a => |a|)
  let altitude := position.map (fun p => p.2.2)
  let curvature := compute_curvature position
  (npMaxE abs_angles).bind fun max_turn_angle =>
  (npLastE altitude).bind fun alt_last =>
  (npFirstE altitude).bind fun alt_first =>
  (npMaxE altitude).bind fun altitude_max =>
  (npMinE altitude).bind fun altitude_min =>
  (npMaxE curvature).map fun curvature_max =>
  { total_path_length := segment_lengths.sum
    mean_segment_length := npMean segment_lengths
    turn_angles := turn_angles
    mean_turn_angle := npMean abs_angles
    max_turn_angle := max_turn_angle
    std_turn_angle := npStd turn_angles
    sharp_turns_count := (abs_angles.filter (fun a => decide (a > sharp_turn_angle))).length
    altitude_mean := npMean altitude
    altitude_std := npStd altitude
    altitude_change := alt_last - alt_first
    altitude_max := altitude_max
    altitude_min := altitude_min
    curvature_mean := npMean curvature
    curvature_max := curvature_max }

/-- Standard gravity 9.81 used for g-force. -/
noncomputable def gConst : ℝ := 981 / 100

/-- The pre-padding acceleration rows of
`FeatureExtractor._compute_acceleration`: the discrete derivative of the
velocity, divided row-wise by the per-step Δt when timestamps are given.
(The source's `dt = np.append(dt, dt[-1])` followed by `dt[:-1]` is a
no-op: the divisor is exactly `np.diff(timestamps)`.) -/
noncomputable def accelRows (velocity : List Vec3)
    (timestamps : Option (List ℝ)) : List Vec3 :=
  match timestamps with
  | some ts =>
    if ts.length > 1 then
      List.zipWith vdiv (listDiffV velocity) (listDiffR ts)
    else listDiffV velocity
  | none => listDiffV velocity

/-- `FeatureExtractor._compute_acceleration`: the acceleration rows
padded by repeating the last row; `acceleration[-1]` raises on fewer
than 2 velocity samples. -/
noncomputable def compute_acceleration (velocity : List Vec3)
    (timestamps : Option (List ℝ)) : Except String (List Vec3) :=
  let acc := accelRows velocity timestamps
  match acc.getLast? with
  | none => .error idxEmptyMsg
  | some a => .ok (acc ++ [a])

/-- The features computed by `FeatureExtractor.extract_acceleration_features`. -/
structure AccelFeatures where
  g_force : List ℝ
  g_force_mean : ℝ
  g_force_max : ℝ
  g_force_std : ℝ
  high_g_events : ℕ
  ax_mean : ℝ
  ay_mean : ℝ
  az_mean : ℝ
  jerk_mean : ℝ
  jerk_max : ℝ

/-- `FeatureExtractor.extract_acceleration_features` with the configured
high-g threshold (default 5.0).  The jerk is the rowwise difference of
the acceleration array and its per-row norm — `np.diff` first, then the
norm — not the difference of the norms. -/
noncomputable def extract_acceleration_features (high_g : ℝ)
    (acceleration : List Vec3) : Except String AccelFeatures :=
  let g_force := acceleration.map (fun a => norm3 a / gConst)
  let jerk_magnitude := (listDiffV acceleration).map norm3
  (npMaxE g_force).bind fun g_force_max =>
  (npMaxE jerk_magnitude).map fun jerk_max =>
  { g_force := g_force
    g_force_mean := npMean g_force
    g_force_max := g_force_max
    g_force_std := npStd g_force
    high_g_events := (g_force.filter (fun g => decide (g > high_g))).length
    ax_mean := npMean (acceleration.map (fun a => a.1))
    ay_mean := npMean (acceleration.map (fun a => a.2.1))
    az_mean := npMean (acceleration.map (fun a => a.2.2))
    jerk_mean := npMean jerk_magnitude
    jerk_max := jerk_max }

/-- The jerk sequence as the specification words it: the discrete
derivative of the acceleration-magnitude sequence (differences of the
norms, not norms of the differences).  Stated from the spec for the
comparison in C6. -/
noncomputable def claimJerkSeq (acceleration : List Vec3) : List ℝ :=
  listDiffR (acceleration.map norm3)

/-! ### Helper lemmas for the feature extractor -/

theorem listDiffV_length (l : List Vec3) : (listDiffV l).length = l.length - 1 := by
  induction l with
  | nil => rfl
  | cons a t ih =>
    cases t with
    | nil => rfl
    | cons b r =>
      show ((b - a) :: listDiffV (b :: r)).length = (a :: b :: r).length - 1
      simp only [List.length_cons]
      rw [ih]
      simp

theorem compute_curvature_ne_nil (position : List Vec3) :
    compute_curvature position ≠ [] := by
  simp only [compute_curvature]
  split_ifs with h
  · simp
  · intro hc
    apply_fun List.length at hc
    simp only [List.length_zipWith, List.length_tail, listDiffV_length,
      List.length_nil] at hc
    omega

theorem norm3_eval (x y z r : ℝ) (hr : 0 ≤ r) (h : x ^ 2 + y ^ 2 + z ^ 2 = r ^ 2) :
    norm3 (x, y, z) = r := by
  have hd : norm3 (x, y, z) = Real.sqrt (x ^ 2 + y ^ 2 + z ^ 2) := rfl
  rw [hd, h, Real.sqrt_sq hr]

theorem norm3_zero : norm3 (0 : Vec3) = 0 := by
  have hd : norm3 (0 : Vec3) = Real.sqrt ((0 : ℝ) ^ 2 + (0 : ℝ) ^ 2 + (0 : ℝ) ^ 2) := rfl
  rw [hd]
  simp

/-- When the turn-angle magnitudes are nonempty, trajectory extraction
succeeds and `max_turn_angle` is their running maximum. -/
theorem extract_traj_ok (sharp : ℝ) (position : List Vec3)
    (hpos : position ≠ []) (a0 : ℝ) (as : List ℝ)
    (hta : (compute_turn_angles position).map (fun x => |x|) = a0 :: as) :
    ∃ F, extract_trajectory_features sharp position = .ok F ∧
      F.turn_angles = compute_turn_angles position ∧
      F.max_turn_angle = as.foldl max a0 := by
  obtain ⟨p, ps, rfl⟩ := List.exists_cons_of_ne_nil hpos
  obtain ⟨c0, cs, hc⟩ := List.exists_cons_of_ne_nil (compute_curvature_ne_nil (p :: ps))
  simp only [extract_trajectory_features]
  rw [hta, hc]
  exact ⟨_, rfl, rfl, rfl⟩

/-! ### Claim theorems C1 -/

/-- C1 (amended): with fewer than 3 position samples the turn-angle
sequence is empty and the curvature helper returns the one-element `[0]`
(length 1, not `max(0, N−2)`); trajectory feature extraction itself then
faults, because `max_turn_angle` takes `np.max` of the empty turn-angle
array, which raises `ValueError`. -/
theorem claim_C1_short_input (sharp : ℝ) (position : List Vec3)
    (h : position.length < 3) :
    compute_turn_angles position = [] ∧
    compute_curvature position = [0] ∧
    extract_trajectory_features sharp position = .error maxEmptyMsg := by
  have hta : compute_turn_angles position = [] := by
    simp only [compute_turn_angles, if_pos h]
  refine ⟨hta, ?_, ?_⟩
  · simp only [compute_curvature, if_pos h]
  · simp only [extract_trajectory_features]
    rw [hta]
    rfl

noncomputable def posShort : List Vec3 := [(0, 0, 0), (1, 0, 0)]

/-- C1 counterexample: on the 2-sample track `[[0,0,0],[1,0,0]]` the
turn-angle sequence is empty as claimed, but the curvature sequence is
`[0]` (length 1, not `max(0, N−2) = 0`) and trajectory feature extraction
raises instead of completing. -/
theorem claim_C1_counterexample :
    compute_turn_angles posShort = [] ∧
    compute_curvature posShort = [0] ∧
    extract_trajectory_features 45 posShort = .error maxEmptyMsg :=
  ⟨rfl, rfl, rfl⟩

/-- Witness for C1 (amended), at a 1-sample track. -/
theorem claim_C1_witness :
    compute_turn_angles [((5 : ℝ), (6 : ℝ), (7 : ℝ))] = [] ∧
    compute_curvature [((5 : ℝ), (6 : ℝ), (7 : ℝ))] = [0] ∧
    extract_trajectory_features 45 [((5 : ℝ), (6 : ℝ), (7 : ℝ))] = .error maxEmptyMsg :=
  claim_C1_short_input 45 [((5 : ℝ), (6 : ℝ), (7 : ℝ))] (by simp)

/-! ### Claim theorem C7 -/

noncomputable def vI : Vec3 := (1, 0, 0)

noncomputable def vJ : Vec3 := (0, 1, 0)

noncomputable def posCorner : List Vec3 :=
  [(0, 0, 0), (1, 0, 0), (2, 0, 0), (2, 1, 0), (2, 2, 0)]

theorem listDiffV_posCorner : listDiffV posCorner = [vI, vI, vJ, vJ] := by
  simp only [posCorner, listDiffV, vI, vJ, Prod.mk_sub_mk]
  norm_num

theorem angleDeg_right_angle : angleDeg vI vJ = 90 := by
  have hdot : dot3 vI vJ = 0 := by norm_num [dot3, vI, vJ]
  unfold angleDeg
  rw [hdot, zero_div]
  have hmin : min (0 : ℝ) 1 = 0 := min_eq_left (by norm_num)
  have hmax : max (-1 : ℝ) 0 = 0 := max_eq_right (by norm_num)
  unfold clip
  rw [hmin, hmax, Real.arccos_zero]
  unfold npDegrees
  have hpi := Real.pi_ne_zero
  field_simp
  ring

theorem compute_turn_angles_posCorner :
    compute_turn_angles posCorner = [angleDeg vI vI, 90, angleDeg vJ vJ] := by
  have h5 : ¬ posCorner.length < 3 := by norm_num [posCorner]
  unfold compute_turn_angles
  rw [if_neg h5, listDiffV_posCorner]
  show [angleDeg vI vI, angleDeg vI vJ, angleDeg vJ vJ] = _
  rw [angleDeg_right_angle]

/-- C7: for the concrete positions `[[0,0,0],[1,0,0],[2,0,0],[2,1,0],[2,2,0]]`
the turn-angle sequence has length 3, its value at index 1 is exactly 90
degrees, and trajectory extraction returns `max_turn_angle > 45`. -/
theorem claim_C7_corner_scenario :
    (compute_turn_angles posCorner).length = 3 ∧
    (compute_turn_angles posCorner)[1]? = some 90 ∧
    ∃ F, extract_trajectory_features 45 posCorner = .ok F ∧
      45 < F.max_turn_angle := by
  refine ⟨?_, ?_, ?_⟩
  · rw [compute_turn_angles_posCorner]
    rfl
  · rw [compute_turn_angles_posCorner]
    rfl
  · have habs : (compute_turn_angles posCorner).map (fun x => |x|) =
        |angleDeg vI vI| :: [(90 : ℝ), |angleDeg vJ vJ|] := by
      rw [compute_turn_angles_posCorner]
      show [|angleDeg vI vI|, |(90 : ℝ)|, |angleDeg vJ vJ|] = _
      rw [abs_of_nonneg (by norm_num : (0 : ℝ) ≤ 90)]
    obtain ⟨F, hF, hta, hmax⟩ :=
      extract_traj_ok 45 posCorner (by simp [posCorner]) _ _ habs
    refine ⟨F, hF, ?_⟩
    rw [hmax]
    have hfold : List.foldl max |angleDeg vI vI| [(90 : ℝ), |angleDeg vJ vJ|] =
        max (max |angleDeg vI vI| 90) |angleDeg vJ vJ| := rfl
    rw [hfold]
    have h1 : (90 : ℝ) ≤ max |angleDeg vI vI| 90 := le_max_right _ _
    have h2 : max |angleDeg vI vI| 90 ≤
        max (max |angleDeg vI vI| 90) |angleDeg vJ vJ| := le_max_left _ _
    linarith

/-! ### Claim theorems C6 -/

theorem listDiffV_concat (l : List Vec3) (a b : Vec3) (h : l.getLast? = some b) :
    listDiffV (l ++ [a]) = listDiffV l ++ [a - b] := by
  induction l with
  | nil => simp at h
  | cons x xs ih =>
    cases xs with
    | nil =>
      simp only [List.getLast?_singleton, Option.some.injEq] at h
      subst h
      rfl
    | cons y ys =>
      have h2 : (y :: ys).getLast? = some b := by
        rwa [List.getLast?_cons_cons] at h
      show (y - x) :: listDiffV ((y :: ys) ++ [a]) =
        ((y - x) :: listDiffV (y :: ys)) ++ [a - b]
      rw [ih h2, List.cons_append]

/-- When the g-force and jerk-magnitude sequences are nonempty,
acceleration extraction succeeds, `jerk_mean` is their mean and
`jerk_max` their running maximum. -/
theorem extract_accel_ok (hg : ℝ) (acc : List Vec3) (g0 j0 : ℝ) (gs js : List ℝ)
    (hgf : acc.map (fun a => norm3 a / gConst) = g0 :: gs)
    (hjm : (listDiffV acc).map norm3 = j0 :: js) :
    ∃ F, extract_acceleration_features hg acc = .ok F ∧
      F.jerk_mean = npMean (j0 :: js) ∧ F.jerk_max = js.foldl max j0 := by
  simp only [extract_acceleration_features]
  rw [hgf, hjm]
  exact ⟨_, rfl, rfl, rfl⟩

noncomputable def accPadded : List Vec3 := [(3, 0, 0), (0, 4, 0), (0, 4, 0)]

theorem listDiffV_accPadded : listDiffV accPadded = [(-3, 4, 0), (0, 0, 0)] := by
  simp only [accPadded, listDiffV, Prod.mk_sub_mk]
  norm_num

theorem norms_accPadded : accPadded.map norm3 = [3, 4, 4] := by
  have h3 : norm3 ((3 : ℝ), 0, 0) = 3 := norm3_eval 3 0 0 3 (by norm_num) (by norm_num)
  have h4 : norm3 ((0 : ℝ), 4, 0) = 4 := norm3_eval 0 4 0 4 (by norm_num) (by norm_num)
  simp [accPadded, h3, h4, -Prod.mk_zero_zero]

theorem jerk_norms_accPadded : (listDiffV accPadded).map norm3 = [5, 0] := by
  have h5 : norm3 ((-3 : ℝ), 4, 0) = 5 := norm3_eval (-3) 4 0 5 (by norm_num) (by norm_num)
  have h0 : norm3 ((0 : ℝ), 0, 0) = 0 := norm3_eval 0 0 0 0 (by norm_num) (by norm_num)
  rw [listDiffV_accPadded]
  simp [h5, h0, -Prod.mk_zero_zero]

/-- C6 counterexample: for the velocity sequence
`[[0,0,0],[3,0,0],[3,4,0]]` (no timestamps) the pipeline pads the
acceleration to `[[3,0,0],[0,4,0],[0,4,0]]`, and the code computes
`jerk_mean = 5/2`, `jerk_max = 5` — the norms of the acceleration
differences — whereas the differences of the acceleration norms
`[3,4,4]` are `[1,0]`, with mean `1/2` and max `1`. -/
theorem claim_C6_counterexample :
    compute_acceleration [((0 : ℝ), 0, 0), (3, 0, 0), (3, 4, 0)] none = .ok accPadded ∧
    (∃ F, extract_acceleration_features 5 accPadded = .ok F ∧
      F.jerk_mean = 5 / 2 ∧ F.jerk_max = 5) ∧
    claimJerkSeq accPadded = [1, 0] ∧
    npMean (claimJerkSeq accPadded) = 1 / 2 ∧
    npMaxE (claimJerkSeq accPadded) = .ok 1 ∧
    ((5 : ℝ) / 2 ≠ 1 / 2 ∧ (5 : ℝ) ≠ 1) := by
  have hd : listDiffV [((0 : ℝ), 0, 0), (3, 0, 0), (3, 4, 0)] = [(3, 0, 0), (0, 4, 0)] := by
    simp only [listDiffV, Prod.mk_sub_mk]
    norm_num
  have hseq : claimJerkSeq accPadded = [1, 0] := by
    unfold claimJerkSeq
    rw [norms_accPadded]
    simp only [listDiffR]
    norm_num
  refine ⟨?_, ?_, hseq, ?_, ?_, by norm_num, by norm_num⟩
  · simp only [compute_acceleration, accelRows]
    rw [hd]
    rfl
  · have hgf : accPadded.map (fun a => norm3 a / gConst) =
        (3 / gConst) :: [4 / gConst, 4 / gConst] := by
      have h3 : norm3 ((3 : ℝ), 0, 0) = 3 := norm3_eval 3 0 0 3 (by norm_num) (by norm_num)
      have h4 : norm3 ((0 : ℝ), 4, 0) = 4 := norm3_eval 0 4 0 4 (by norm_num) (by norm_num)
      simp [accPadded, h3, h4, -Prod.mk_zero_zero]
    obtain ⟨F, hF, hmean, hmax⟩ :=
      extract_accel_ok 5 accPadded _ _ _ _ hgf jerk_norms_accPadded
    refine ⟨F, hF, ?_, ?_⟩
    · rw [hmean]
      unfold npMean
      norm_num
    · rw [hmax]
      show max 5 0 = 5
      exact max_eq_left (by norm_num)
  · rw [hseq]
    unfold npMean
    norm_num
  · rw [hseq]
    show Except.ok (max 1 0) = Except.ok 1
    rw [max_eq_left (by norm_num : (0:ℝ) ≤ 1)]

theorem listDiffR_length (l : List ℝ) : (listDiffR l).length = l.length - 1 := by
  induction l with
  | nil => rfl
  | cons a t ih =>
    cases t with
    | nil => rfl
    | cons b r =>
      show ((b - a) :: listDiffR (b :: r)).length = (a :: b :: r).length - 1
      simp only [List.length_cons]
      rw [ih]
      simp

/-- With at least 2 velocity samples (and timestamps, when present,
sharing the velocity's length, as on every track), the pre-padding
acceleration has `N − 1 ≥ 1` rows on both paths. -/
theorem accelRows_ne_nil (v : List Vec3) (timestamps : Option (List ℝ))
    (h2 : 2 ≤ v.length)
    (hts : ∀ ts, timestamps = some ts → ts.length = v.length) :
    accelRows v timestamps ≠ [] := by
  intro h0
  apply_fun List.length at h0
  cases timestamps with
  | none =>
    simp only [accelRows, listDiffV_length, List.length_nil] at h0
    omega
  | some ts =>
    have hlen := hts ts rfl
    simp only [accelRows] at h0
    rw [if_pos (by omega : ts.length > 1)] at h0
    simp only [List.length_zipWith, listDiffV_length, listDiffR_length,
      List.length_nil] at h0
    omega

/-- C6 (amended): for every velocity sequence of length at least 2
(shorter input makes the padding indexing raise), with or without
timestamps (timestamps, when present, share the velocity's length, as
on every track), the jerk features are the mean and the maximum of the
norms of the consecutive differences of the acceleration rows —
`‖a_(i+1) − a_i‖`, not the differences of the magnitudes `‖a_i‖` — the
acceleration being the (Δt-scaled, when timestamps are given) velocity
difference rows padded with a repeat of the last row, which contributes
one final zero entry. -/
theorem claim_C6_jerk_is_norm_of_diff (hg : ℝ) (v : List Vec3)
    (timestamps : Option (List ℝ)) (h2 : 2 ≤ v.length)
    (hts : ∀ ts, timestamps = some ts → ts.length = v.length) :
    ∃ dl F,
      (accelRows v timestamps).getLast? = some dl ∧
      compute_acceleration v timestamps = .ok (accelRows v timestamps ++ [dl]) ∧
      extract_acceleration_features hg (accelRows v timestamps ++ [dl]) = .ok F ∧
      (listDiffV (accelRows v timestamps ++ [dl])).map norm3 =
        (listDiffV (accelRows v timestamps)).map norm3 ++ [0] ∧
      F.jerk_mean = npMean ((listDiffV (accelRows v timestamps)).map norm3 ++ [0]) ∧
      npMaxE ((listDiffV (accelRows v timestamps)).map norm3 ++ [0]) = .ok F.jerk_max := by
  have hdne : accelRows v timestamps ≠ [] := accelRows_ne_nil v timestamps h2 hts
  obtain ⟨dl, hdl⟩ : ∃ a, (accelRows v timestamps).getLast? = some a := by
    cases hgl : (accelRows v timestamps).getLast? with
    | none => exact absurd (List.getLast?_eq_none_iff.mp hgl) hdne
    | some a => exact ⟨a, rfl⟩
  have hacc : compute_acceleration v timestamps =
      .ok (accelRows v timestamps ++ [dl]) := by
    simp only [compute_acceleration, hdl]
  have hjm : (listDiffV (accelRows v timestamps ++ [dl])).map norm3 =
      (listDiffV (accelRows v timestamps)).map norm3 ++ [0] := by
    rw [listDiffV_concat (accelRows v timestamps) dl dl hdl, sub_self, List.map_append]
    simp [norm3_zero]
  obtain ⟨g0, gs, hgf⟩ := List.exists_cons_of_ne_nil
    (show (accelRows v timestamps ++ [dl]).map (fun a => norm3 a / gConst) ≠ [] by simp)
  obtain ⟨j0, js, hjcons⟩ := List.exists_cons_of_ne_nil
    (show (listDiffV (accelRows v timestamps ++ [dl])).map norm3 ≠ [] by
      rw [hjm]; simp)
  obtain ⟨F, hF, hmean, hmax⟩ :=
    extract_accel_ok hg (accelRows v timestamps ++ [dl]) g0 j0 gs js hgf hjcons
  refine ⟨dl, F, hdl, hacc, hF, hjm, ?_, ?_⟩
  · rw [hmean, ← hjcons, hjm]
  · rw [← hjm, hjcons]
    show Except.ok (js.foldl max j0) = .ok F.jerk_max
    rw [hmax]

/-- Witness for C6 (amended), exercising the timestamped path on the
counterexample's velocity sequence with timestamps `[0, 1, 2]`. -/
theorem claim_C6_witness :
    ∃ dl F,
      (accelRows [((0 : ℝ), 0, 0), (3, 0, 0), (3, 4, 0)]
        (some [(0 : ℝ), 1, 2])).getLast? = some dl ∧
      compute_acceleration [((0 : ℝ), 0, 0), (3, 0, 0), (3, 4, 0)]
          (some [(0 : ℝ), 1, 2]) =
        .ok (accelRows [((0 : ℝ), 0, 0), (3, 0, 0), (3, 4, 0)]
          (some [(0 : ℝ), 1, 2]) ++ [dl]) ∧
      extract_acceleration_features 5
          (accelRows [((0 : ℝ), 0, 0), (3, 0, 0), (3, 4, 0)]
            (some [(0 : ℝ), 1, 2]) ++ [dl]) = .ok F ∧
      (listDiffV (accelRows [((0 : ℝ), 0, 0), (3, 0, 0), (3, 4, 0)]
            (some [(0 : ℝ), 1, 2]) ++ [dl])).map norm3 =
        (listDiffV (accelRows [((0 : ℝ), 0, 0), (3, 0, 0), (3, 4, 0)]
          (some [(0 : ℝ), 1, 2]))).map norm3 ++ [0] ∧
      F.jerk_mean = npMean
        ((listDiffV (accelRows [((0 : ℝ), 0, 0), (3, 0, 0), (3, 4, 0)]
          (some [(0 : ℝ), 1, 2]))).map norm3 ++ [0]) ∧
      npMaxE ((listDiffV (accelRows [((0 : ℝ), 0, 0), (3, 0, 0), (3, 4, 0)]
          (some [(0 : ℝ), 1, 2]))).map norm3 ++ [0]) = .ok F.jerk_max :=
  claim_C6_jerk_is_norm_of_diff 5 [((0 : ℝ), 0, 0), (3, 0, 0), (3, 4, 0)]
    (some [(0 : ℝ), 1, 2]) (by simp)
    (by
      intro ts h
      simp only [Option.some.injEq] at h
      subst h
      rfl)

/-! ## Synthetic data generator (`synthetic_generator.py`)

`np.random.randn` draws from numpy's ambient global generator; it is
modelled by an explicit stream of values with a cursor (`Rng`), threaded
through every operation that draws.  Configured parameters keep their
defaults from `SyntheticDataGenerator.__init__`; `center_frequency`,
`prf` and `bandwidth` are fixed attributes. -/

structure Rng where
  stream : ℕ → ℝ
  pos : ℕ

/-- `np.random.randn(n)`: the next `n` values of the stream. -/
noncomputable def randn : ℕ → Rng → List ℝ × Rng
  | 0, g => ([], g)
  | n + 1, g =>
    let rest := randn n ⟨g.stream, g.pos + 1⟩
    (g.stream g.pos :: rest.1, rest.2)

structure GenConfig where
  duration : ℝ := 60
  noise_level : ℝ := 1 / 20
  sampling_rate : ℝ := 1000

noncomputable def centerFrequency : ℝ := 10 ^ 10

noncomputable def prfVal : ℝ := 1000

noncomputable def bandwidthVal : ℝ := 10 ^ 8

/-- `np.linspace(start, stop, num)`. -/
noncomputable def linspace (start stop : ℝ) (num : ℕ) : List ℝ :=
  (List.range num).map (fun (i : ℕ) => start + (stop - start) * (i : ℝ) / ((num : ℝ) - 1))

/-- `np.cumsum`. -/
noncomputable def cumsum (l : List ℝ) : List ℝ :=
  (l.scanl (fun a b => a + b) 0).tail

/-- `np.diff(t, prepend=t[0])`: length-preserving differences with a
leading zero. -/
noncomputable def diffPrepend : List ℝ → List ℝ
  | [] => []
  | a :: rest => List.zipWith (fun x y => x - y) (a :: rest) (a :: a :: rest)

def zipWith3 {α β γ δ : Type} (f : α → β → γ → δ) :
    List α → List β → List γ → List δ
  | a :: as, b :: bs, c :: cs => f a b c :: zipWith3 f as bs cs
  | _, _, _ => []

/-- `np.column_stack([x, y, z])`. -/
noncomputable def zip3V (x y z : List ℝ) : List Vec3 :=
  zipWith3 (fun a b c => (a, b, c)) x y z

/-- `t[-1]` where the caller guarantees a nonempty array (junk 0
otherwise). -/
noncomputable def npLastD (l : List ℝ) : ℝ := l.getLast?.getD 0

/-- `SyntheticDataGenerator._compute_velocity`: forward differences over
Δt with the first row copied from the second; all zeros for fewer than 2
samples. -/
noncomputable def compute_velocity (position : List Vec3) (t : List ℝ) : List Vec3 :=
  if position.length > 1 then
    match List.zipWith vdiv (listDiffV position) (listDiffR t) with
    | [] => position.map (fun _ => (0, 0, 0))
    | v1 :: rest => v1 :: v1 :: rest
  else position.map (fun _ => (0, 0, 0))

/-- `_generate_high_speed_trajectory` (its inline velocity computation is
the body of `_compute_velocity`). -/
noncomputable def generate_high_speed_trajectory (t : List ℝ) :
    List Vec3 × List Vec3 :=
  let speed := t.map (fun s => 350 + 50 * Real.sin (1 / 2 * s))
  let direction := t.map (fun s => 1 / 5 * s)
  let dt := diffPrepend t
  let x := cumsum (zipWith3 (fun sp d dd => sp * Real.cos d * dd) speed direction dt)
  let y := cumsum (zipWith3 (fun sp d dd => sp * Real.sin d * dd) speed direction dt)
  let z := t.map (fun s => 8000 + 500 * Real.sin (1 / 10 * s))
  let position := zip3V x y z
  (position, compute_velocity position t)

noncomputable def generate_medium_speed_trajectory (t : List ℝ) :
    List Vec3 × List Vec3 :=
  let speed := t.map (fun s => 200 + 30 * Real.sin (3 / 10 * s))
  let direction := t.map (fun s => 3 / 20 * s + 1 / 2 * Real.sin (1 / 5 * s))
  let dt := diffPrepend t
  let x := cumsum (zipWith3 (fun sp d dd => sp * Real.cos d * dd) speed direction dt)
  let y := cumsum (zipWith3 (fun sp d dd => sp * Real.sin d * dd) speed direction dt)
  let z := t.map (fun s => 5000 + 300 * Real.cos (3 / 20 * s))
  let position := zip3V x y z
  (position, compute_velocity position t)

/-- The per-sample heading increment of `_generate_g_turn_trajectory`:
the masked additions for the turn windows starting at 15, 30, 45 s. -/
noncomputable def gTurnDirRaw (s : ℝ) : ℝ :=
  ([15, 30, 45] : List ℝ).foldl
    (fun acc tt => acc + (if tt < s ∧ s < tt + 2 then Real.pi * (s - tt) / 2 else 0)) 0

noncomputable def generate_g_turn_trajectory (t : List ℝ) :
    List Vec3 × List Vec3 :=
  let speed := t.map (fun _ => (250 : ℝ))
  let dt := diffPrepend t
  let direction := cumsum (List.zipWith (fun s dd => gTurnDirRaw s * dd) t dt)
  let x := cumsum (zipWith3 (fun sp d dd => sp * Real.cos d * dd) speed direction dt)
  let y := cumsum (zipWith3 (fun sp d dd => sp * Real.sin d * dd) speed direction dt)
  let z := t.map (fun s => 6000 + 200 * Real.sin (1 / 10 * s))
  let position := zip3V x y z
  (position, compute_velocity position t)

noncomputable def generate_sharp_trajectory (t : List ℝ) :
    List Vec3 × List Vec3 :=
  let speed := t.map (fun _ => (180 : ℝ))
  let direction := t.map (fun s => 2 * Real.sin (1 / 2 * s))
  let dt := diffPrepend t
  let x := cumsum (zipWith3 (fun sp d dd => sp * Real.cos d * dd) speed direction dt)
  let y := cumsum (zipWith3 (fun sp d dd => sp * Real.sin d * dd) speed direction dt)
  let z := t.map (fun s => 4000 + 100 * Real.sin (1 / 5 * s))
  let position := zip3V x y z
  (position, compute_velocity position t)

/-- `_generate_hovering_trajectory`: Gaussian jitter (σ scaled by 5) on
the horizontal coordinates — the only randomized trajectory. -/
noncomputable def generate_hovering_trajectory (t : List ℝ) (g : Rng) :
    (List Vec3 × List Vec3) × Rng :=
  let r1g := randn t.length g
  let r2g := randn t.length r1g.2
  let x := List.zipWith (fun s r => 100 * Real.sin (1 / 10 * s) + 5 * r) t r1g.1
  let y := List.zipWith (fun s r => 100 * Real.cos (1 / 10 * s) + 5 * r) t r2g.1
  let z := t.map (fun s => 3000 + 10 * Real.sin (1 / 20 * s))
  let position := zip3V x y z
  ((position, compute_velocity position t), r2g.2)

noncomputable def generate_evasive_trajectory (t : List ℝ) :
    List Vec3 × List Vec3 :=
  let speed := t.map (fun s => 300 + 50 * Real.sin s)
  let direction := t.map (fun s => 3 * Real.sin (4 / 5 * s) * Real.cos (3 / 10 * s))
  let dt := diffPrepend t
  let x := cumsum (zipWith3 (fun sp d dd => sp * Real.cos d * dd) speed direction dt)
  let y := cumsum (zipWith3 (fun sp d dd => sp * Real.sin d * dd) speed direction dt)
  let z := t.map (fun s => 7000 + 1000 * Real.sin (2 / 5 * s))
  let position := zip3V x y z
  (position, compute_velocity position t)

noncomputable def generate_spiral_trajectory (t : List ℝ) :
    List Vec3 × List Vec3 :=
  let radius := t.map (fun s => 2000 + 500 * s / npLastD t)
  let angle := t.map (fun s => 2 * Real.pi * s / 10)
  let x := List.zipWith (fun r a => r * Real.cos a) radius angle
  let y := List.zipWith (fun r a => r * Real.sin a) radius angle
  let z := t.map (fun s => 5000 + 100 * s)
  let position := zip3V x y z
  (position, compute_velocity position t)

noncomputable def generate_default_trajectory (t : List ℝ) :
    List Vec3 × List Vec3 :=
  let speed := t.map (fun _ => (150 : ℝ))
  let direction := t.map (fun s => 1 / 10 * s)
  let dt := diffPrepend t
  let x := cumsum (zipWith3 (fun sp d dd => sp * Real.cos d * dd) speed direction dt)
  let y := cumsum (zipWith3 (fun sp d dd => sp * Real.sin d * dd) speed direction dt)
  let z := t.map (fun _ => (5000 : ℝ))
  let position := zip3V x y z
  (position, compute_velocity position t)

/-- `SyntheticDataGenerator._generate_radar_returns`: deterministic chirp
signal plus complex Gaussian noise scaled by the noise level (two fresh
`randn` draws of `len(timestamps)` values each). -/
noncomputable def generate_radar_returns (noise_level : ℝ)
    (position velocity : List Vec3) (t : List ℝ) (g : Rng) : List ℂ × Rng :=
  let ranges := position.map norm3
  let radial_velocity := zipWith3 (fun v p r => dot3 v (vdiv p r)) velocity position ranges
  let doppler_freq := radial_velocity.map (fun rv => 2 * rv * centerFrequency / (3 * 10 ^ 8))
  let chirp_rate := bandwidthVal / (1 / prfVal)
  let phase := List.zipWith
    (fun s df => 2 * Real.pi * (centerFrequency * s + df * s + 1 / 2 * chirp_rate * s ^ 2))
    t doppler_freq
  let amplitude := ranges.map (fun r => 1 / (r / 1000 + 1))
  let det := List.zipWith
    (fun (a ph : ℝ) => Complex.ofReal a * Complex.exp (Complex.I * Complex.ofReal ph))
    amplitude phase
  let n1g := randn t.length g
  let n2g := randn t.length n1g.2
  let noise := List.zipWith
    (fun u w => (noise_level : ℂ) * ((u : ℝ) + Complex.I * (w : ℝ))) n1g.1 n2g.1
  (List.zipWith (fun d nz => d + nz) det noise, n2g.2)

/-- `np.fft.fft` magnitudes (finite DFT). -/
noncomputable def dftMag (s : List ℝ) : List ℝ :=
  let n := s.length
  (List.range n).map (fun (k : ℕ) =>
    Complex.abs (((List.range n).map (fun (j : ℕ) =>
      ((s.getD j 0 : ℝ) : ℂ) *
        Complex.exp (-2 * ((Real.pi : ℝ) : ℂ) * Complex.I * (j : ℂ) * (k : ℂ) / (n : ℂ)))).sum))

/-- `np.fft.fftshift`: roll by `n // 2`, i.e. the upper half
(`ceil(n/2)` on) first. -/
noncomputable def fftshift (l : List ℝ) : List ℝ :=
  l.drop ((l.length + 1) / 2) ++ l.take ((l.length + 1) / 2)

/-- `SyntheticDataGenerator._generate_doppler_spectrum`: centered FFT
magnitude of the per-sample speed. -/
noncomputable def generate_doppler_spectrum (velocity : List Vec3) : List ℝ :=
  fftshift (dftMag (velocity.map norm3))

/-- One synthetic track: the dictionary returned by
`SyntheticDataGenerator.generate_target`, with its metadata fields
flattened. -/
structure Track where
  raw_data : List ℂ
  position : List Vec3
  velocity : List Vec3
  timestamps : List ℝ
  doppler : List ℝ
  target_id : ℤ
  behavior : String
  sampling_rate : ℝ
  prf : ℝ
  center_frequency : ℝ
  duration : ℝ
  num_samples : ℕ
  ground_truth_behavior : String

/-- `SyntheticDataGenerator.generate_target`: any behavior name outside
the seven dispatched archetypes falls through to the default trajectory
— no error is raised for an unknown name. -/
noncomputable def generate_target (cfg : GenConfig) (behavior : String)
    (target_id : ℤ) (g : Rng) : Track × Rng :=
  let num_samples := (⌊cfg.duration * prfVal⌋).toNat
  let timestamps := linspace 0 cfg.duration num_samples
  let pvg : (List Vec3 × List Vec3) × Rng :=
    if behavior = "high_speed" then (generate_high_speed_trajectory timestamps, g)
    else if behavior = "medium_speed" then (generate_medium_speed_trajectory timestamps, g)
    else if behavior = "g_turn" then (generate_g_turn_trajectory timestamps, g)
    else if behavior = "sharp_trajectory" then (generate_sharp_trajectory timestamps, g)
    else if behavior = "hovering" then generate_hovering_trajectory timestamps g
    else if behavior = "evasive_maneuver" then (generate_evasive_trajectory timestamps, g)
    else if behavior = "spiral" then (generate_spiral_trajectory timestamps, g)
    else (generate_default_trajectory timestamps, g)
  let rawg := generate_radar_returns cfg.noise_level pvg.1.1 pvg.1.2 timestamps pvg.2
  ({ raw_data := rawg.1
     position := pvg.1.1
     velocity := pvg.1.2
     timestamps := timestamps
     doppler := generate_doppler_spectrum pvg.1.2
     target_id := target_id
     behavior := behavior
     sampling_rate := cfg.sampling_rate
     prf := prfVal
     center_frequency := centerFrequency
     duration := cfg.duration
     num_samples := num_samples
     ground_truth_behavior := behavior }, rawg.2)

/-- `SyntheticDataGenerator.generate_test_scenarios`: the five fixed
archetype/identifier pairs, generated in order with the ambient random
state threaded through. -/
noncomputable def generate_test_scenarios (cfg : GenConfig) (g : Rng) :
    List Track × Rng :=
  let s1 := generate_target cfg "high_speed" 1001 g
  let s2 := generate_target cfg "evasive_maneuver" 1002 s1.2
  let s3 := generate_target cfg "medium_speed" 1003 s2.2
  let s4 := generate_target cfg "hovering" 1004 s3.2
  let s5 := generate_target cfg "sharp_trajectory" 1005 s4.2
  ([s1.1, s2.1, s3.1, s4.1, s5.1], s5.2)

noncomputable def rngZero : Rng := ⟨fun _ => 0, 0⟩

noncomputable def rngOne : Rng := ⟨fun _ => 1, 0⟩

/-- The eight archetype names of the specification's vocabulary. -/
def archetypeVocabulary : List String :=
  ["high_speed", "medium_speed", "g_turn", "sharp_trajectory", "hovering",
   "evasive_maneuver", "spiral", "default"]

/-! ### Helper lemmas for the synthesizer -/

theorem randn_snd (n : ℕ) (g : Rng) : (randn n g).2 = ⟨g.stream, g.pos + n⟩ := by
  induction n generalizing g with
  | zero => simp [randn]
  | succ m ih =>
    simp only [randn, ih]
    congr 1
    omega

theorem randn_fst_head (n : ℕ) (g : Rng) (h : 0 < n) :
    (randn n g).1.head? = some (g.stream g.pos) := by
  cases n with
  | zero => omega
  | succ m => rfl

theorem linspace_length (a b : ℝ) (n : ℕ) : (linspace a b n).length = n := by
  unfold linspace
  rw [List.length_map, List.length_range]

theorem cumsum_length (l : List ℝ) : (cumsum l).length = l.length := by
  simp [cumsum, List.length_scanl]

theorem diffPrepend_length (l : List ℝ) : (diffPrepend l).length = l.length := by
  cases l with
  | nil => rfl
  | cons a rest => simp [diffPrepend]

theorem zipWith3_length {α β γ δ : Type} (f : α → β → γ → δ)
    (a : List α) (b : List β) (c : List γ) :
    (zipWith3 f a b c).length = min a.length (min b.length c.length) := by
  induction a generalizing b c with
  | nil => simp [zipWith3]
  | cons x xs ih =>
    cases b with
    | nil => simp [zipWith3]
    | cons y ys =>
      cases c with
      | nil => simp [zipWith3]
      | cons z zs =>
        simp only [zipWith3, List.length_cons, ih]
        omega

theorem num_samples_default : (⌊(60 : ℝ) * prfVal⌋).toNat = 60000 := by
  have h : (60 : ℝ) * prfVal = ((60000 : ℤ) : ℝ) := by
    norm_num [prfVal]
  rw [h, Int.floor_intCast]
  rfl

theorem compute_velocity_ne_nil (p : List Vec3) (t : List ℝ) (hp : p ≠ []) :
    compute_velocity p t ≠ [] := by
  simp only [compute_velocity]
  split_ifs with h
  · cases hv : List.zipWith vdiv (listDiffV p) (listDiffR t) with
    | nil => simpa using hp
    | cons v1 rest => simp
  · simpa using hp

theorem high_speed_position_length (t : List ℝ) :
    (generate_high_speed_trajectory t).1.length = t.length := by
  simp only [generate_high_speed_trajectory, zip3V]
  rw [zipWith3_length]
  simp [cumsum_length, zipWith3_length, diffPrepend_length]

theorem high_speed_velocity_ne_nil (t : List ℝ) (ht : t ≠ []) :
    (generate_high_speed_trajectory t).2 ≠ [] := by
  have hp : (generate_high_speed_trajectory t).1 ≠ [] := by
    intro h0
    apply_fun List.length at h0
    rw [high_speed_position_length t] at h0
    simp at h0
    exact ht h0
  exact compute_velocity_ne_nil _ _ hp

/-- The first sample of the deterministic chirp part of the radar
return: amplitude times `exp(i*phase)` at the head of the arrays. -/
noncomputable def radarDetHead (p v : Vec3) (t0 : ℝ) : ℂ :=
  Complex.ofReal (1 / (norm3 p / 1000 + 1)) *
    Complex.exp (Complex.I * Complex.ofReal (2 * Real.pi *
      (centerFrequency * t0 +
        2 * dot3 v (vdiv p (norm3 p)) * centerFrequency / (3 * 10 ^ 8) * t0 +
        1 / 2 * (bandwidthVal / (1 / prfVal)) * t0 ^ 2)))

/-- The head of the radar return decomposes into the deterministic chirp
sample (independent of the random state) plus the noise term built from
the first draw of each of the two `randn` calls. -/
theorem radar_head (nl : ℝ) (p v : Vec3) (t0 : ℝ) (P V : List Vec3) (T : List ℝ)
    (g : Rng) :
    ((generate_radar_returns nl (p :: P) (v :: V) (t0 :: T) g).1).head? =
      some (radarDetHead p v t0 + Complex.ofReal nl *
        (Complex.ofReal (g.stream g.pos) +
          Complex.I * Complex.ofReal (g.stream (g.pos + (T.length + 1))))) := by
  simp only [generate_radar_returns]
  rw [randn_snd]
  simp only [List.length_cons, randn, zipWith3, List.map_cons,
    List.zipWith_cons_cons, List.head?_cons]
  rfl

theorem hs_target_raw (cfg : GenConfig) (i : ℤ) (g : Rng) :
    (generate_target cfg "high_speed" i g).1.raw_data =
      (generate_radar_returns cfg.noise_level
        (generate_high_speed_trajectory
          (linspace 0 cfg.duration (⌊cfg.duration * prfVal⌋).toNat)).1
        (generate_high_speed_trajectory
          (linspace 0 cfg.duration (⌊cfg.duration * prfVal⌋).toNat)).2
        (linspace 0 cfg.duration (⌊cfg.duration * prfVal⌋).toNat) g).1 := rfl

/-! ### Claim theorems C2 and C4 -/

/-- C2 counterexample: two identically configured invocations of
`generate_test_scenarios` that read different values from the ambient
random source (all-zeros vs all-ones Gaussian draws) return different
track lists — already the first (high-speed) scenario's `raw_data`
differs in its first sample, because the return adds freshly drawn
noise.  The generation is therefore not deterministic. -/
theorem claim_C2_counterexample :
    (generate_test_scenarios {} rngZero).1 ≠ (generate_test_scenarios {} rngOne).1 := by
  intro h
  have h1 : (generate_target {} "high_speed" 1001 rngZero).1 =
      (generate_target {} "high_speed" 1001 rngOne).1 := by
    have h0 := congrArg List.head? h
    simp only [generate_test_scenarios, List.head?_cons, Option.some.injEq] at h0
    exact h0
  have hraw := congrArg Track.raw_data h1
  rw [hs_target_raw, hs_target_raw] at hraw
  have hns : (⌊({} : GenConfig).duration * prfVal⌋).toNat = 60000 := num_samples_default
  rw [hns] at hraw
  have hT : linspace 0 ({} : GenConfig).duration 60000 ≠ [] := by
    intro h0
    apply_fun List.length at h0
    rw [linspace_length] at h0
    simp at h0
  obtain ⟨t0, T1, hTe⟩ := List.exists_cons_of_ne_nil hT
  have hP : (generate_high_speed_trajectory
      (linspace 0 ({} : GenConfig).duration 60000)).1 ≠ [] := by
    intro h0
    apply_fun List.length at h0
    rw [high_speed_position_length, linspace_length] at h0
    simp at h0
  obtain ⟨p, P1, hPe⟩ := List.exists_cons_of_ne_nil hP
  have hV := high_speed_velocity_ne_nil (linspace 0 ({} : GenConfig).duration 60000) hT
  obtain ⟨v, V1, hVe⟩ := List.exists_cons_of_ne_nil hV
  rw [hPe, hVe, hTe] at hraw
  have hheads := congrArg List.head? hraw
  rw [radar_head, radar_head] at hheads
  simp only [Option.some.injEq] at hheads
  have hne := add_left_cancel hheads
  simp only [rngZero, rngOne] at hne
  simp only [Complex.ofReal_zero, Complex.ofReal_one] at hne
  norm_num [Complex.ext_iff] at hne

/-- C2 (amended): the five scenarios' archetypes and target identifiers
are fixed — high_speed/1001, evasive_maneuver/1002, medium_speed/1003,
hovering/1004, sharp_trajectory/1005, in that order, for every random
state — but the generated data itself depends on the ambient random
draws (Gaussian noise added to every radar return, jitter in the
hovering trajectory), so repeated invocations agree only when fed the
same random stream. -/
theorem claim_C2_fixed_identities (cfg : GenConfig) (g : Rng) :
    ((generate_test_scenarios cfg g).1).map
        (fun tr => (tr.ground_truth_behavior, tr.target_id)) =
      [("high_speed", 1001), ("evasive_maneuver", 1002), ("medium_speed", 1003),
       ("hovering", 1004), ("sharp_trajectory", 1005)] := rfl

/-- C4 counterexample: requesting the unknown archetype `"zigzag"` does
not fail — `generate_target` silently returns a complete track whose
trajectory is the default one and whose ground-truth label is the
unknown name. -/
theorem claim_C4_counterexample :
    (generate_target {} "zigzag" 0 rngZero).1.ground_truth_behavior = "zigzag" ∧
    (generate_target {} "zigzag" 0 rngZero).1.position =
      (generate_default_trajectory (linspace 0 60 60000)).1 := by
  constructor
  · rfl
  · have hstep : (generate_target {} "zigzag" 0 rngZero).1.position =
        (generate_default_trajectory
          (linspace 0 60 ((⌊(60 : ℝ) * prfVal⌋).toNat))).1 := rfl
    rw [hstep, num_samples_default]

/-- C4 (amended): for every archetype name outside the dispatch
vocabulary, single-target generation does not fail; it silently falls
back to the default trajectory model and returns a normal track that
records the unknown name as its ground-truth behavior. -/
theorem claim_C4_unknown_archetype (cfg : GenConfig) (b : String) (i : ℤ) (g : Rng)
    (hb : b ∉ archetypeVocabulary) :
    (generate_target cfg b i g).1.ground_truth_behavior = b ∧
    (generate_target cfg b i g).1.position =
      (generate_default_trajectory
        (linspace 0 cfg.duration (⌊cfg.duration * prfVal⌋).toNat)).1 ∧
    (generate_target cfg b i g).1.velocity =
      (generate_default_trajectory
        (linspace 0 cfg.duration (⌊cfg.duration * prfVal⌋).toNat)).2 := by
  simp only [archetypeVocabulary, List.mem_cons, List.not_mem_nil, or_false,
    not_or] at hb
  obtain ⟨h1, h2, h3, h4, h5, h6, h7, h8⟩ := hb
  refine ⟨rfl, ?_, ?_⟩ <;>
    simp only [generate_target, if_neg h1, if_neg h2, if_neg h3, if_neg h4,
      if_neg h5, if_neg h6, if_neg h7]

/-- Witness for C4 (amended) at the unknown archetype name `"zigzag"`. -/
theorem claim_C4_witness :
    (generate_target {} "zigzag" 0 rngZero).1.ground_truth_behavior = "zigzag" ∧
    (generate_target {} "zigzag" 0 rngZero).1.position =
      (generate_default_trajectory
        (linspace 0 ({} : GenConfig).duration
          (⌊({} : GenConfig).duration * prfVal⌋).toNat)).1 ∧
    (generate_target {} "zigzag" 0 rngZero).1.velocity =
      (generate_default_trajectory
        (linspace 0 ({} : GenConfig).duration
          (⌊({} : GenConfig).duration * prfVal⌋).toNat)).2 :=
  claim_C4_unknown_archetype {} "zigzag" 0 rngZero (by decide)
